import Mathlib

/-!
A shallow embedding of the authentication and ownership-authorization
subsystem of the passenger-management backend (the FastAPI handlers in
src/api/passengers.py and the repository in
src/database/repository/passengers.py), together with theorems about its
behaviour.

The database is modelled as a list of rows.  Each handler is a pure
function from its request inputs and the database state to an outcome
(status code plus payload) and, for mutating handlers, the new database
state.  The bearer-token dependency has already run when a protected
handler executes, so handlers receive the decoded token claims directly,
as the Python handlers do.
-/

/-- A validated passenger request body (PassengerRequestSchema in
src/schemas/requests.py): name, age, email, password.  Tokens issued by
create_passenger and update_passenger embed exactly this payload, so the
same type serves as the type of decoded token claims. -/
structure PassengerBody where
  name : String
  age : Nat
  email : String
  password : String
deriving Repr, DecidableEq

/-- A row of the passengers table as returned by a peewee dicts() query:
every column, including the stored password and the updated_at
bookkeeping column written by PassengersRepository.update. -/
structure PassengerRow where
  id : Nat
  name : String
  age : Nat
  email : String
  password : String
  updated_at : Option String
deriving Repr, DecidableEq

/-- A row of the reservations table; the peewee backref
passenger.reservations is modelled as a foreign-key filter on
passenger_id. -/
structure Reservation where
  id : Nat
  passenger_id : Nat
  destination : String
  scheduled_at : String
deriving Repr, DecidableEq

namespace PassengersRepository

/-- get_passengers: select().dicts() over the whole table — every row,
every column, no gating and no pagination arguments. -/
def get_passengers (db : List PassengerRow) : List PassengerRow :=
  db

/-- get_by_email: the first row whose email column equals the argument,
or none when DoesNotExist is raised. -/
def get_by_email (db : List PassengerRow) (passenger_email : String) :
    Option PassengerRow :=
  db.find? (fun r => r.email == passenger_email)

/-- get_passenger_by_id: selects only the id column of the matching row. -/
def get_passenger_by_id (db : List PassengerRow) (passenger_id : Nat) :
    Option Nat :=
  (db.find? (fun r => r.id == passenger_id)).map (fun r => r.id)

/-- create: inserts a new row built from the validated body; the store
assigns the fresh id (modelled as the newId argument).  The unique-email
constraint that raises IntegrityError lives in the ORM model and is
checked by the handler model below. -/
def create (db : List PassengerRow) (data : PassengerBody) (newId : Nat) :
    List PassengerRow :=
  db ++ [{ id := newId, name := data.name, age := data.age,
           email := data.email, password := data.password,
           updated_at := none }]

/-- update: an UPDATE of all body columns plus updated_at, WHERE id
matches — rewrites exactly the matching rows and leaves the rest alone. -/
def update (db : List PassengerRow) (id : Nat) (data : PassengerBody)
    (now : String) : List PassengerRow :=
  db.map (fun r =>
    if r.id = id then
      { id := r.id, name := data.name, age := data.age,
        email := data.email, password := data.password,
        updated_at := some now }
    else r)

/-- delete: a DELETE WHERE id matches — keeps exactly the rows whose id
differs from the argument. -/
def delete (db : List PassengerRow) (id : Nat) : List PassengerRow :=
  db.filter (fun r => r.id != id)

/-- get_reservations: the reservations related to a passenger via the
foreign key. -/
def get_reservations (resv : List Reservation) (id : Nat) :
    List Reservation :=
  resv.filter (fun r => r.passenger_id == id)

end PassengersRepository

/-- The three decode failure kinds of the Token Codec. -/
inductive DecodeError where
  | Malformed
  | SignatureInvalid
  | Expired
deriving Repr, DecidableEq

/-- Modelled from the spec: src/utils/token.py (JWTManager) is not under
src/.  A well-formed signed token: the embedded claims, the embedded
expiry timestamp, and the key it was signed with (standing in for the
signature). -/
structure Token where
  claims : PassengerBody
  exp : Nat
  sigKey : Nat
deriving Repr, DecidableEq

/-- Modelled from the spec: the wire form a decoder receives — either not
a well-formed signed token at all, or a well-formed signed token. -/
inductive TokenString where
  | malformed (raw : String)
  | signed (t : Token)
deriving Repr, DecidableEq

namespace JWTManager

/-- Modelled from the spec: encode embeds the claim set with an expiry a
fixed configured duration after issuance and signs with the configured
key (spec section 4.1). -/
def encode (key now dur : Nat) (claims : PassengerBody) : Token :=
  { claims := claims, exp := now + dur, sigKey := key }

/-- Modelled from the spec: decode yields the claims or fails with
Malformed (not a well-formed signed token), Expired (current time past
the embedded expiry) or SignatureInvalid (signature does not match the
configured key); per spec section 8, a token past its embedded expiry
fails with Expired, never SignatureInvalid. -/
def decode (key now : Nat) : TokenString → Except DecodeError PassengerBody
  | .malformed _ => .error .Malformed
  | .signed t =>
    if t.exp < now then .error .Expired
    else if t.sigKey ≠ key then .error .SignatureInvalid
    else .ok t.claims

end JWTManager

/-- The observable outcome of a handler: an error JSONResponse (status
code and BadResponse message) or a success payload with its status
code. -/
inductive Outcome (α : Type) where
  | err (status : Nat) (message : String)
  | ok (status : Nat) (data : α)
deriving Repr, DecidableEq

/-- The HTTP status code of an outcome. -/
def Outcome.status {α : Type} : Outcome α → Nat
  | .err s _ => s
  | .ok s _ => s

/-- GET /passengers/ (get_all_passengers): takes no token dependency and
returns 200 with every stored row. -/
def get_all_passengers (db : List PassengerRow) : Outcome (List PassengerRow) :=
  .ok 200 (PassengersRepository.get_passengers db)

/-- GET /passengers/{id} (get_passenger_details): re-resolves the decoded
token claims' email through the repository; 404 when no row resolves,
403 when the resolved row's id differs from the path id, otherwise 200
with the resolved row. -/
def get_passenger_details (decoded_token : PassengerBody) (id : Nat)
    (db : List PassengerRow) : Outcome PassengerRow :=
  match PassengersRepository.get_by_email db decoded_token.email with
  | none => .err 404 "passenger not found"
  | some passenger =>
    if passenger.id ≠ id then
      .err 403 "passenger logged in does not have access to this resource"
    else
      .ok 200 passenger

/-- POST /passengers/ (create_passenger), after request-body validation:
a duplicate email raises IntegrityError mapped to 400; otherwise the row
is inserted and a token is issued over the validated body itself. -/
def create_passenger (body : PassengerBody) (newId key tnow dur : Nat)
    (db : List PassengerRow) :
    Outcome (Token × PassengerRow) × List PassengerRow :=
  if db.any (fun r => r.email == body.email) then
    (.err 400 "passenger already exists", db)
  else
    let db2 := PassengersRepository.create db body newId
    let token := JWTManager.encode key tnow dur body
    (.ok 201 (token, { id := newId, name := body.name, age := body.age,
                       email := body.email, password := body.password,
                       updated_at := none }), db2)

/-- PUT /passengers/{id} (update_passenger), after request-body
validation: identity re-resolution and the ownership check run before
the repository update; on success a fresh token is issued over the
validated body and 201 is returned. -/
def update_passenger (decoded_token : PassengerBody) (id : Nat)
    (body : PassengerBody) (now : String) (key tnow dur : Nat)
    (db : List PassengerRow) :
    Outcome (Token × PassengerBody) × List PassengerRow :=
  match PassengersRepository.get_by_email db decoded_token.email with
  | none => (.err 404 "passenger not found", db)
  | some passenger =>
    if passenger.id ≠ id then
      (.err 403 "passenger logged in does not have access to this resource", db)
    else
      let db2 := PassengersRepository.update db id body now
      let token := JWTManager.encode key tnow dur body
      (.ok 201 (token, body), db2)

/-- DELETE /passengers/{id} (delete_passenger): identity re-resolution
and the ownership check run before the repository delete; success is 204
with no content. -/
def delete_passenger (decoded_token : PassengerBody) (id : Nat)
    (db : List PassengerRow) : Outcome Unit × List PassengerRow :=
  match PassengersRepository.get_by_email db decoded_token.email with
  | none => (.err 404 "passenger not found", db)
  | some passenger =>
    if passenger.id ≠ id then
      (.err 403 "passenger logged in does not have access to this resource", db)
    else
      (.ok 204 (), PassengersRepository.delete db id)

/-- GET /passengers/{id}/reservations (get_passenger_reservations): same
guard as the other protected handlers, then 200 with the passenger's
reservations. -/
def get_passenger_reservations (decoded_token : PassengerBody) (id : Nat)
    (db : List PassengerRow) (resv : List Reservation) :
    Outcome (List Reservation) :=
  match PassengersRepository.get_by_email db decoded_token.email with
  | none => .err 404 "passenger not found"
  | some passenger =>
    if passenger.id ≠ id then
      .err 403 "passenger logged in does not have access to this resource"
    else
      .ok 200 (PassengersRepository.get_reservations resv id)

/-- Modelled from the spec: the login handler (src/api/auth.py, POST
/auth/login) is not under src/.  Per spec section 4.2 and tests/auth.py:
resolve the email through the store (absent means 404), compare the
supplied password with the stored credential (mismatch means 401 with
message "Invalid password"), and on a match encode the resolved
identity's full claim set into a token returned with 200. -/
def login (email pw : String) (key tnow dur : Nat)
    (db : List PassengerRow) : Outcome Token :=
  match PassengersRepository.get_by_email db email with
  | none => .err 404 "passenger not found"
  | some p =>
    if pw = p.password then
      .ok 200 (JWTManager.encode key tnow dur
        { name := p.name, age := p.age, email := p.email,
          password := p.password })
    else
      .err 401 "Invalid password"

/-- A row resolved by email carries exactly that email. -/
theorem get_by_email_email {db : List PassengerRow} {e : String}
    {p : PassengerRow}
    (h : PassengersRepository.get_by_email db e = some p) : p.email = e := by
  unfold PassengersRepository.get_by_email at h
  have hb := List.find?_some h
  exact eq_of_beq hb

/-- C1: for every protected operation (get details, update, delete, list
reservations), if the passenger record resolved from the authenticated
token's email exists but its id does not equal the path-addressed
resource id, the operation fails with 403 (OwnershipViolation), returns
no resource data, and leaves the database unchanged. -/
theorem ownership_mismatch_forbidden_all_ops
    (tok : PassengerBody) (id : Nat) (p : PassengerRow)
    (body : PassengerBody) (now : String) (key tnow dur : Nat)
    (db : List PassengerRow) (resv : List Reservation)
    (hfind : PassengersRepository.get_by_email db tok.email = some p)
    (hne : p.id ≠ id) :
    get_passenger_details tok id db =
      Outcome.err 403 "passenger logged in does not have access to this resource" ∧
    update_passenger tok id body now key tnow dur db =
      (Outcome.err 403 "passenger logged in does not have access to this resource", db) ∧
    delete_passenger tok id db =
      (Outcome.err 403 "passenger logged in does not have access to this resource", db) ∧
    get_passenger_reservations tok id db resv =
      Outcome.err 403 "passenger logged in does not have access to this resource" := by
  refine ⟨?_, ?_, ?_, ?_⟩ <;>
    simp [get_passenger_details, update_passenger, delete_passenger,
          get_passenger_reservations, hfind, hne]

theorem ownership_mismatch_forbidden_all_ops_witness :
    get_passenger_details ⟨"J", 25, "a@b.c", "pw"⟩ 2
        [⟨1, "J", 25, "a@b.c", "pw", none⟩] =
      Outcome.err 403 "passenger logged in does not have access to this resource" ∧
    update_passenger ⟨"J", 25, "a@b.c", "pw"⟩ 2 ⟨"K", 30, "x@y.z", "q"⟩ "t" 7 0 5
        [⟨1, "J", 25, "a@b.c", "pw", none⟩] =
      (Outcome.err 403 "passenger logged in does not have access to this resource",
        [⟨1, "J", 25, "a@b.c", "pw", none⟩]) ∧
    delete_passenger ⟨"J", 25, "a@b.c", "pw"⟩ 2
        [⟨1, "J", 25, "a@b.c", "pw", none⟩] =
      (Outcome.err 403 "passenger logged in does not have access to this resource",
        [⟨1, "J", 25, "a@b.c", "pw", none⟩]) ∧
    get_passenger_reservations ⟨"J", 25, "a@b.c", "pw"⟩ 2
        [⟨1, "J", 25, "a@b.c", "pw", none⟩] [] =
      Outcome.err 403 "passenger logged in does not have access to this resource" :=
  ownership_mismatch_forbidden_all_ops ⟨"J", 25, "a@b.c", "pw"⟩ 2
    ⟨1, "J", 25, "a@b.c", "pw", none⟩ ⟨"K", 30, "x@y.z", "q"⟩ "t" 7 0 5
    [⟨1, "J", 25, "a@b.c", "pw", none⟩] [] (by decide) (by decide)

/-- C2: every protected operation derives the authenticated identity by
re-resolving the token claims' email through the store — its outcome is
invariant under every claim field other than the email (the claims
embed no id at all) — and when no passenger record resolves for that
email it fails with 404 (IdentityNotFound) and leaves the database
unchanged. -/
theorem identity_reresolved_by_email
    (tok tok2 : PassengerBody) (id : Nat) (body : PassengerBody)
    (now : String) (key tnow dur : Nat)
    (db : List PassengerRow) (resv : List Reservation)
    (hemail : tok.email = tok2.email)
    (hnone : PassengersRepository.get_by_email db tok.email = none) :
    (get_passenger_details tok id db = get_passenger_details tok2 id db ∧
     update_passenger tok id body now key tnow dur db =
       update_passenger tok2 id body now key tnow dur db ∧
     delete_passenger tok id db = delete_passenger tok2 id db ∧
     get_passenger_reservations tok id db resv =
       get_passenger_reservations tok2 id db resv) ∧
    (get_passenger_details tok id db = Outcome.err 404 "passenger not found" ∧
     update_passenger tok id body now key tnow dur db =
       (Outcome.err 404 "passenger not found", db) ∧
     delete_passenger tok id db = (Outcome.err 404 "passenger not found", db) ∧
     get_passenger_reservations tok id db resv =
       Outcome.err 404 "passenger not found") := by
  constructor
  · refine ⟨?_, ?_, ?_, ?_⟩
    · unfold get_passenger_details
      rw [hemail]
    · unfold update_passenger
      rw [hemail]
    · unfold delete_passenger
      rw [hemail]
    · unfold get_passenger_reservations
      rw [hemail]
  · refine ⟨?_, ?_, ?_, ?_⟩ <;>
      simp [get_passenger_details, update_passenger, delete_passenger,
            get_passenger_reservations, hnone]

theorem identity_reresolved_by_email_witness :
    (get_passenger_details ⟨"J", 25, "a@b.c", "pw"⟩ 1 [] =
       get_passenger_details ⟨"K", 99, "a@b.c", "zz"⟩ 1 [] ∧
     update_passenger ⟨"J", 25, "a@b.c", "pw"⟩ 1 ⟨"B", 1, "b@b.b", "x"⟩ "t" 7 0 5 [] =
       update_passenger ⟨"K", 99, "a@b.c", "zz"⟩ 1 ⟨"B", 1, "b@b.b", "x"⟩ "t" 7 0 5 [] ∧
     delete_passenger ⟨"J", 25, "a@b.c", "pw"⟩ 1 [] =
       delete_passenger ⟨"K", 99, "a@b.c", "zz"⟩ 1 [] ∧
     get_passenger_reservations ⟨"J", 25, "a@b.c", "pw"⟩ 1 [] [] =
       get_passenger_reservations ⟨"K", 99, "a@b.c", "zz"⟩ 1 [] []) ∧
    (get_passenger_details ⟨"J", 25, "a@b.c", "pw"⟩ 1 [] =
       Outcome.err 404 "passenger not found" ∧
     update_passenger ⟨"J", 25, "a@b.c", "pw"⟩ 1 ⟨"B", 1, "b@b.b", "x"⟩ "t" 7 0 5 [] =
       (Outcome.err 404 "passenger not found", []) ∧
     delete_passenger ⟨"J", 25, "a@b.c", "pw"⟩ 1 [] =
       (Outcome.err 404 "passenger not found", []) ∧
     get_passenger_reservations ⟨"J", 25, "a@b.c", "pw"⟩ 1 [] [] =
       Outcome.err 404 "passenger not found") :=
  identity_reresolved_by_email ⟨"J", 25, "a@b.c", "pw"⟩ ⟨"K", 99, "a@b.c", "zz"⟩
    1 ⟨"B", 1, "b@b.b", "x"⟩ "t" 7 0 5 [] [] rfl (by decide)

/-- C3: on every failure path of the protected mutating operations
(update and delete) — identity-not-found or ownership mismatch — no
persisted state is changed: whenever the outcome is an error, the
database after the call equals the database before it. -/
theorem no_mutation_on_failure_paths
    (tok : PassengerBody) (id : Nat) (body : PassengerBody) (now : String)
    (key tnow dur : Nat) (db : List PassengerRow) :
    (∀ s m, (update_passenger tok id body now key tnow dur db).1 = Outcome.err s m →
       (update_passenger tok id body now key tnow dur db).2 = db) ∧
    (∀ s m, (delete_passenger tok id db).1 = Outcome.err s m →
       (delete_passenger tok id db).2 = db) := by
  constructor
  · intro s m h
    unfold update_passenger at h ⊢
    cases hf : PassengersRepository.get_by_email db tok.email with
    | none => simp [hf]
    | some p =>
      by_cases hid : p.id ≠ id
      · simp [hf, hid]
      · rw [hf] at h
        simp only [if_neg hid] at h
        exact absurd h (by simp)
  · intro s m h
    unfold delete_passenger at h ⊢
    cases hf : PassengersRepository.get_by_email db tok.email with
    | none => simp [hf]
    | some p =>
      by_cases hid : p.id ≠ id
      · simp [hf, hid]
      · rw [hf] at h
        simp only [if_neg hid] at h
        exact absurd h (by simp)

theorem no_mutation_on_failure_paths_witness :
    (update_passenger ⟨"J", 25, "a@b.c", "pw"⟩ 1 ⟨"K", 30, "x@y.z", "q"⟩ "t" 7 0 5 []).2 = [] ∧
    (delete_passenger ⟨"J", 25, "a@b.c", "pw"⟩ 1 []).2 = [] :=
  ⟨(no_mutation_on_failure_paths ⟨"J", 25, "a@b.c", "pw"⟩ 1 ⟨"K", 30, "x@y.z", "q"⟩
      "t" 7 0 5 []).1 404 "passenger not found" (by decide),
   (no_mutation_on_failure_paths ⟨"J", 25, "a@b.c", "pw"⟩ 1 ⟨"K", 30, "x@y.z", "q"⟩
      "t" 7 0 5 []).2 404 "passenger not found" (by decide)⟩

/-- C4: login fails with 404 (IdentityNotFound) when the email resolves
to no stored identity, fails with 401 and message "Invalid password"
when the identity resolves but the supplied password does not match the
stored credential, and only on a match returns 200 with a token over the
resolved identity's full claim set. -/
theorem login_failure_and_success_cases
    (e pw : String) (key tnow dur : Nat) (db : List PassengerRow) :
    (PassengersRepository.get_by_email db e = none →
       login e pw key tnow dur db = Outcome.err 404 "passenger not found") ∧
    (∀ p, PassengersRepository.get_by_email db e = some p → pw ≠ p.password →
       login e pw key tnow dur db = Outcome.err 401 "Invalid password") ∧
    (∀ p, PassengersRepository.get_by_email db e = some p → pw = p.password →
       login e pw key tnow dur db = Outcome.ok 200 (JWTManager.encode key tnow dur
         { name := p.name, age := p.age, email := p.email,
           password := p.password })) := by
  refine ⟨fun hn => ?_, fun p hp hne => ?_, fun p hp heq => ?_⟩
  · simp [login, hn]
  · simp [login, hp, hne]
  · simp [login, hp, heq]

theorem login_failure_and_success_cases_witness :
    login "a@b.c" "pw" 7 0 5 [] = Outcome.err 404 "passenger not found" ∧
    login "a@b.c" "bad" 7 0 5 [⟨1, "J", 25, "a@b.c", "pw", none⟩] =
      Outcome.err 401 "Invalid password" ∧
    login "a@b.c" "pw" 7 0 5 [⟨1, "J", 25, "a@b.c", "pw", none⟩] =
      Outcome.ok 200 (JWTManager.encode 7 0 5 ⟨"J", 25, "a@b.c", "pw"⟩) :=
  ⟨(login_failure_and_success_cases "a@b.c" "pw" 7 0 5 []).1 (by decide),
   (login_failure_and_success_cases "a@b.c" "bad" 7 0 5
      [⟨1, "J", 25, "a@b.c", "pw", none⟩]).2.1
      ⟨1, "J", 25, "a@b.c", "pw", none⟩ (by decide) (by decide),
   (login_failure_and_success_cases "a@b.c" "pw" 7 0 5
      [⟨1, "J", 25, "a@b.c", "pw", none⟩]).2.2
      ⟨1, "J", 25, "a@b.c", "pw", none⟩ (by decide) rfl⟩

/-- C5: whenever login succeeds, decoding the returned token immediately
with the same configured key (as the Bearer Authenticator does) yields
the embedded claims, and their email field equals the email supplied at
login. -/
theorem login_decode_roundtrip_email
    (e pw : String) (key tnow dur : Nat) (db : List PassengerRow) (t : Token)
    (h : login e pw key tnow dur db = Outcome.ok 200 t) :
    JWTManager.decode key tnow (TokenString.signed t) = Except.ok t.claims ∧
    t.claims.email = e := by
  unfold login at h
  cases hf : PassengersRepository.get_by_email db e with
  | none =>
    rw [hf] at h
    exact absurd h (by simp)
  | some p =>
    rw [hf] at h
    by_cases hp : pw = p.password
    · simp only [hp, if_pos, Outcome.ok.injEq, true_and] at h
      subst h
      have hlt : ¬ (tnow + dur < tnow) := by omega
      refine ⟨?_, ?_⟩
      · simp [JWTManager.decode, JWTManager.encode, hlt]
      · simpa [JWTManager.encode] using get_by_email_email hf
    · simp [hp] at h

theorem login_decode_roundtrip_email_witness :
    JWTManager.decode 7 0 (TokenString.signed ⟨⟨"J", 25, "a@b.c", "pw"⟩, 5, 7⟩) =
      Except.ok (⟨⟨"J", 25, "a@b.c", "pw"⟩, 5, 7⟩ : Token).claims ∧
    (⟨⟨"J", 25, "a@b.c", "pw"⟩, 5, 7⟩ : Token).claims.email = "a@b.c" :=
  login_decode_roundtrip_email "a@b.c" "pw" 7 0 5
    [⟨1, "J", 25, "a@b.c", "pw", none⟩] ⟨⟨"J", 25, "a@b.c", "pw"⟩, 5, 7⟩
    (by decide)

/-- C6: for every well-formed signed token whose embedded expiry lies in
the past at decode time, decode fails with Expired — in particular never
with SignatureInvalid — keeping the three decode failure kinds
distinguishable. -/
theorem expired_decode_is_expired
    (key now : Nat) (t : Token) (h : t.exp < now) :
    JWTManager.decode key now (TokenString.signed t) =
      Except.error DecodeError.Expired ∧
    JWTManager.decode key now (TokenString.signed t) ≠
      Except.error DecodeError.SignatureInvalid := by
  constructor
  · simp [JWTManager.decode, h]
  · simp [JWTManager.decode, h]

theorem expired_decode_is_expired_witness :
    JWTManager.decode 7 10 (TokenString.signed ⟨⟨"J", 25, "a@b.c", "pw"⟩, 3, 9⟩) =
      Except.error DecodeError.Expired ∧
    JWTManager.decode 7 10 (TokenString.signed ⟨⟨"J", 25, "a@b.c", "pw"⟩, 3, 9⟩) ≠
      Except.error DecodeError.SignatureInvalid :=
  expired_decode_is_expired 7 10 ⟨⟨"J", 25, "a@b.c", "pw"⟩, 3, 9⟩ (by decide)

/-- C7: the Ownership Guard decision is idempotent: as long as the
email-to-passenger mapping is unchanged between evaluations (the store
resolves the claims' email identically), re-evaluating any protected
operation with the same claims and the same path id yields the same
decision — the full response for the read operations, and the same
status code for the mutating ones. -/
theorem ownership_guard_idempotent
    (tok : PassengerBody) (id : Nat) (body : PassengerBody) (now : String)
    (key tnow dur : Nat) (db1 db2 : List PassengerRow)
    (resv : List Reservation)
    (h : PassengersRepository.get_by_email db1 tok.email =
         PassengersRepository.get_by_email db2 tok.email) :
    get_passenger_details tok id db1 = get_passenger_details tok id db2 ∧
    (update_passenger tok id body now key tnow dur db1).1.status =
      (update_passenger tok id body now key tnow dur db2).1.status ∧
    (delete_passenger tok id db1).1.status =
      (delete_passenger tok id db2).1.status ∧
    get_passenger_reservations tok id db1 resv =
      get_passenger_reservations tok id db2 resv := by
  cases hf : PassengersRepository.get_by_email db1 tok.email with
  | none =>
    have hf2 : PassengersRepository.get_by_email db2 tok.email = none :=
      h.symm.trans hf
    refine ⟨?_, ?_, ?_, ?_⟩ <;>
      simp [get_passenger_details, update_passenger, delete_passenger,
            get_passenger_reservations, hf, hf2]
  | some p =>
    have hf2 : PassengersRepository.get_by_email db2 tok.email = some p :=
      h.symm.trans hf
    by_cases hid : p.id ≠ id
    · refine ⟨?_, ?_, ?_, ?_⟩ <;>
        simp [get_passenger_details, update_passenger, delete_passenger,
              get_passenger_reservations, hf, hf2, hid]
    · refine ⟨?_, ?_, ?_, ?_⟩ <;>
        simp [get_passenger_details, update_passenger, delete_passenger,
              get_passenger_reservations, Outcome.status, hf, hf2, hid]

theorem ownership_guard_idempotent_witness :
    get_passenger_details ⟨"J", 25, "a@b.c", "pw"⟩ 1
        [⟨1, "J", 25, "a@b.c", "pw", none⟩] =
      get_passenger_details ⟨"J", 25, "a@b.c", "pw"⟩ 1
        [⟨2, "K", 30, "x@y.z", "q", none⟩, ⟨1, "J", 25, "a@b.c", "pw", none⟩] ∧
    (update_passenger ⟨"J", 25, "a@b.c", "pw"⟩ 1 ⟨"B", 1, "b@b.b", "x"⟩ "t" 7 0 5
        [⟨1, "J", 25, "a@b.c", "pw", none⟩]).1.status =
      (update_passenger ⟨"J", 25, "a@b.c", "pw"⟩ 1 ⟨"B", 1, "b@b.b", "x"⟩ "t" 7 0 5
        [⟨2, "K", 30, "x@y.z", "q", none⟩, ⟨1, "J", 25, "a@b.c", "pw", none⟩]).1.status ∧
    (delete_passenger ⟨"J", 25, "a@b.c", "pw"⟩ 1
        [⟨1, "J", 25, "a@b.c", "pw", none⟩]).1.status =
      (delete_passenger ⟨"J", 25, "a@b.c", "pw"⟩ 1
        [⟨2, "K", 30, "x@y.z", "q", none⟩, ⟨1, "J", 25, "a@b.c", "pw", none⟩]).1.status ∧
    get_passenger_reservations ⟨"J", 25, "a@b.c", "pw"⟩ 1
        [⟨1, "J", 25, "a@b.c", "pw", none⟩] [] =
      get_passenger_reservations ⟨"J", 25, "a@b.c", "pw"⟩ 1
        [⟨2, "K", 30, "x@y.z", "q", none⟩, ⟨1, "J", 25, "a@b.c", "pw", none⟩] [] :=
  ownership_guard_idempotent ⟨"J", 25, "a@b.c", "pw"⟩ 1 ⟨"B", 1, "b@b.b", "x"⟩
    "t" 7 0 5 [⟨1, "J", 25, "a@b.c", "pw", none⟩]
    [⟨2, "K", 30, "x@y.z", "q", none⟩, ⟨1, "J", 25, "a@b.c", "pw", none⟩] []
    (by decide)

/-- C8: the list endpoint GET /passengers/ takes no bearer-token
dependency and applies no ownership guard — its model has no claims
argument at all — and for any database state it returns 200 with every
stored passenger row in full, exactly as the repository selected them. -/
theorem list_endpoint_open_returns_all (db : List PassengerRow) :
    get_all_passengers db =
      Outcome.ok 200 (PassengersRepository.get_passengers db) ∧
    PassengersRepository.get_passengers db = db :=
  ⟨rfl, rfl⟩

/-- C9: for every successful POST /passengers/ and every successful PUT
/passengers/{id}, the claim set encoded into the issued token is exactly
the validated request body, including the plaintext password supplied by
the client. -/
theorem issued_token_claims_equal_validated_body
    (body tok : PassengerBody) (newId key tnow dur id : Nat) (now : String)
    (db db2 : List PassengerRow) (p : PassengerRow)
    (hc : db.any (fun r => r.email == body.email) = false)
    (hu : PassengersRepository.get_by_email db2 tok.email = some p)
    (hid : p.id = id) :
    ((create_passenger body newId key tnow dur db).1 =
       Outcome.ok 201 (JWTManager.encode key tnow dur body,
         { id := newId, name := body.name, age := body.age,
           email := body.email, password := body.password,
           updated_at := none }) ∧
     (JWTManager.encode key tnow dur body).claims = body) ∧
    ((update_passenger tok id body now key tnow dur db2).1 =
       Outcome.ok 201 (JWTManager.encode key tnow dur body, body) ∧
     (JWTManager.encode key tnow dur body).claims = body ∧
     (JWTManager.encode key tnow dur body).claims.password = body.password) := by
  refine ⟨⟨?_, rfl⟩, ⟨?_, rfl, rfl⟩⟩
  · simp [create_passenger, hc]
  · simp [update_passenger, hu, hid]

theorem issued_token_claims_equal_validated_body_witness :
    ((create_passenger ⟨"J", 25, "a@b.c", "pw"⟩ 1 7 0 5 []).1 =
       Outcome.ok 201 (JWTManager.encode 7 0 5 ⟨"J", 25, "a@b.c", "pw"⟩,
         ⟨1, "J", 25, "a@b.c", "pw", none⟩) ∧
     (JWTManager.encode 7 0 5 ⟨"J", 25, "a@b.c", "pw"⟩).claims =
       ⟨"J", 25, "a@b.c", "pw"⟩) ∧
    ((update_passenger ⟨"J", 25, "a@b.c", "pw"⟩ 1 ⟨"K", 30, "x@y.z", "q"⟩ "t" 7 0 5
        [⟨1, "J", 25, "a@b.c", "pw", none⟩]).1 =
       Outcome.ok 201 (JWTManager.encode 7 0 5 ⟨"K", 30, "x@y.z", "q"⟩,
         ⟨"K", 30, "x@y.z", "q"⟩) ∧
     (JWTManager.encode 7 0 5 ⟨"K", 30, "x@y.z", "q"⟩).claims =
       ⟨"K", 30, "x@y.z", "q"⟩ ∧
     (JWTManager.encode 7 0 5 ⟨"K", 30, "x@y.z", "q"⟩).claims.password = "q") := by
  have h1 := (issued_token_claims_equal_validated_body ⟨"J", 25, "a@b.c", "pw"⟩
    ⟨"J", 25, "a@b.c", "pw"⟩ 1 7 0 5 1 "t" [] [⟨1, "J", 25, "a@b.c", "pw", none⟩]
    ⟨1, "J", 25, "a@b.c", "pw", none⟩ (by decide) (by decide) rfl).1
  have h2 := (issued_token_claims_equal_validated_body ⟨"K", 30, "x@y.z", "q"⟩
    ⟨"J", 25, "a@b.c", "pw"⟩ 1 7 0 5 1 "t" [] [⟨1, "J", 25, "a@b.c", "pw", none⟩]
    ⟨1, "J", 25, "a@b.c", "pw", none⟩ (by decide) (by decide) rfl).2
  exact ⟨h1, h2⟩

/-- C10: the repository operations update and delete affect only the row
whose id equals the argument: every row stored at a position whose id
differs is still at that position afterwards, and a row with a different
id is in the table after a delete exactly when it was there before. -/
theorem repo_update_delete_frame
    (db : List PassengerRow) (i j : Nat) (data : PassengerBody) (now : String)
    (r r2 : PassengerRow)
    (hj : db[j]? = some r) (hr : r.id ≠ i) (hr2 : r2.id ≠ i) :
    (PassengersRepository.update db i data now)[j]? = some r ∧
    (r2 ∈ PassengersRepository.delete db i ↔ r2 ∈ db) := by
  constructor
  · unfold PassengersRepository.update
    rw [List.getElem?_map, hj]
    simp [hr]
  · unfold PassengersRepository.delete
    simp [List.mem_filter, hr2]

theorem repo_update_delete_frame_witness :
    (PassengersRepository.update
        [⟨1, "J", 25, "a@b.c", "pw", none⟩, ⟨2, "K", 30, "x@y.z", "q", none⟩]
        2 ⟨"Z", 40, "z@z.z", "r"⟩ "t")[0]? =
      some ⟨1, "J", 25, "a@b.c", "pw", none⟩ ∧
    ((⟨1, "J", 25, "a@b.c", "pw", none⟩ : PassengerRow) ∈ PassengersRepository.delete
        [⟨1, "J", 25, "a@b.c", "pw", none⟩, ⟨2, "K", 30, "x@y.z", "q", none⟩] 2 ↔
     (⟨1, "J", 25, "a@b.c", "pw", none⟩ : PassengerRow) ∈
        ([⟨1, "J", 25, "a@b.c", "pw", none⟩, ⟨2, "K", 30, "x@y.z", "q", none⟩] :
          List PassengerRow)) :=
  repo_update_delete_frame
    [⟨1, "J", 25, "a@b.c", "pw", none⟩, ⟨2, "K", 30, "x@y.z", "q", none⟩]
    2 0 ⟨"Z", 40, "z@z.z", "r"⟩ "t"
    ⟨1, "J", 25, "a@b.c", "pw", none⟩ ⟨1, "J", 25, "a@b.c", "pw", none⟩
    (by decide) (by decide) (by decide)
